import Mathlib

set_option maxRecDepth 100000

/-!
Verification of the moderation-policy core of a Telegram group-management
bot (`bot.py`).  The Python source keeps all state in module-level
dictionaries; here each dictionary is embedded as a total function with an
explicit `Option` for presence-sensitive stores, and each handler is
embedded as a pure state transformer.  Fallible platform calls (the
Enforcement Gateway) are modelled by explicit Boolean outcome parameters;
a Python exception escaping a handler is modelled with `Except`.
-/

namespace GroupBot

/-! ## String helpers (embedding of the Python primitives lower, strip, in) -/

/-- Embedding of the Python `str.lower()` call, ASCII case folding on the
underlying character list. -/
def strLower (s : String) : String := ⟨s.data.map Char.toLower⟩

/-- Embedding of the Python `str.strip()` call on a character list:
whitespace is removed from both ends. -/
def trimChars (l : List Char) : List Char :=
  ((l.dropWhile Char.isWhitespace).reverse.dropWhile Char.isWhitespace).reverse

/-- Substring containment on character lists: does `needle` occur
contiguously inside `hay`? -/
def listInfix (needle : List Char) : List Char → Bool
  | [] => needle.isEmpty
  | c :: rest => needle.isPrefixOf (c :: rest) || listInfix needle rest

/-- Embedding of the Python substring test `needle in hay`. -/
def strContains (hay needle : String) : Bool :=
  listInfix needle.data hay.data

/-! ## WarningTracker state (`warnings_store`, `warning_settings`) -/

/-- The per-chat warning settings dictionary value:
`warning_settings[chat] = ('threshold': t, 'mute_duration': h)`. -/
structure WarnSettings where
  threshold : Int
  mute_duration : Int
deriving DecidableEq, Repr

/-- `warnings_store : (chat_id, user_id) -> count`.  Every read in the
source uses `.get(key, 0)`, so absence and a stored 0 are observationally
identical and the store is embedded as a total function. -/
abbrev WarnStore := Int × Int → Nat

/-- `warning_settings : chat_id -> settings`; absence is significant (the
source materialises the default `threshold 3, mute_duration 24` at each
read), so the store keeps the `Option`. -/
abbrev WarnConfig := Int → Option WarnSettings

/-- The settings lookup `warning_settings.get(chat_id, ('threshold': 3,
'mute_duration': 24))` performed by `apply_warning`. -/
def warnParams (cfg : WarnConfig) (chat : Int) : WarnSettings :=
  (cfg chat).getD ⟨3, 24⟩

/-- Result of a completed `apply_warning` call: the final warnings store,
the post-increment count and mute flag returned to the caller, and the
duration (hours) of the mute issued through the gateway, if any. -/
structure WarnResult where
  store : WarnStore
  count : Nat
  muted : Bool
  muteHours : Option Int

/-- Embedding of `apply_warning(context, chat_id, target_id)`.

The source increments and stores the count first, then, if the count
reached the threshold, issues `restrict_chat_member` (modelled by the
`muteOk` outcome parameter) and only afterwards resets the stored count to
0.  A failing restrict therefore raises before the reset line runs: the
`.error` branch carries the store with the un-reset count. -/
def apply_warning (ws : WarnStore) (cfg : WarnConfig) (chat target : Int)
    (muteOk : Bool) : Except WarnStore WarnResult :=
  let key := (chat, target)
  let count := ws key + 1
  let ws1 : WarnStore := fun k => if k = key then count else ws k
  let s := warnParams cfg chat
  if (count : Int) ≥ s.threshold then
    if muteOk then
      .ok ⟨fun k => if k = key then 0 else ws1 k, count, true, some s.mute_duration⟩
    else
      .error ws1
  else
    .ok ⟨ws1, count, false, none⟩

/-- The read `warnings_store.get(key, 0)` used by `check_warnings`. -/
def getCount (ws : WarnStore) (chat target : Int) : Nat := ws (chat, target)

/-- The warnings store left behind by an `apply_warning` call, whether it
returned or raised. -/
def postStore (e : Except WarnStore WarnResult) : WarnStore :=
  match e with
  | .ok r => r.store
  | .error w => w

/-- Did the `apply_warning` call return normally? -/
def warnOk (e : Except WarnStore WarnResult) : Bool :=
  match e with
  | .ok _ => true
  | .error _ => false

/-- The `muted` component returned by a completed `apply_warning` call. -/
def warnMuted (e : Except WarnStore WarnResult) : Option Bool :=
  match e with
  | .ok r => some r.muted
  | .error _ => none

/-- The `count` component returned by a completed `apply_warning` call. -/
def warnCount (e : Except WarnStore WarnResult) : Option Nat :=
  match e with
  | .ok r => some r.count
  | .error _ => none

/-- The mute duration issued by a completed `apply_warning` call. -/
def warnMuteHours (e : Except WarnStore WarnResult) : Option (Option Int) :=
  match e with
  | .ok r => some r.muteHours
  | .error _ => none

/-- The stored count observable (via `GetCount`) after an `apply_warning`
call, returned or raised. -/
def storedAfter (e : Except WarnStore WarnResult) (chat target : Int) : Nat :=
  getCount (postStore e) chat target

/-! ## RestrictionMatrix state (`user_restrictions`) -/

/-- The eight Boolean flags of a `user_restrictions[(chat, user)]` entry,
in the order of the initialising dictionary literal.  Entries are always
created fully populated with these eight keys, and the toggle callback
only flips existing keys, so a record is embedded as a total structure. -/
structure Restrictions where
  flood : Bool
  spam : Bool
  media : Bool
  checks : Bool
  night : Bool
  sticker : Bool
  gif : Bool
  link : Bool
deriving DecidableEq, Repr

/-- The all-false record written when an entry is first created. -/
def allFalse : Restrictions :=
  ⟨false, false, false, false, false, false, false, false⟩

/-- `user_restrictions : (chat_id, user_id) -> flags`; the source tests
`key in user_restrictions`, so absence is significant. -/
abbrev RestrStore := Int × Int → Option Restrictions

/-! ## Link policy (`delete_links`) -/

/-- The kind of a message or caption entity, as far as `delete_links`
discriminates them. -/
inductive EntityKind where
  | url
  | textLink
  | other
deriving DecidableEq, Repr

/-- An inbound group message as seen by `delete_links`: the combined
message and caption entity list, the text and the caption. -/
structure LinkMsg where
  chatId : Int
  userId : Int
  entities : List EntityKind
  text : String
  caption : String

/-- Does the regex alternative `https?://`, `www.` or `t.me/` match at the
head of `l`, followed by at least one non-whitespace character (the `S+`
part)?  The `(?i)` flag is accounted for by the caller lowercasing `l`. -/
def urlPatternAt (l : List Char) : Bool :=
  (patFollowed "http://" l) || (patFollowed "https://" l) ||
    (patFollowed "www." l) || (patFollowed "t.me/" l)
where
  patFollowed (p : String) (l : List Char) : Bool :=
    p.data.isPrefixOf l &&
      (match l.drop p.data.length with
       | [] => false
       | c :: _ => !c.isWhitespace)

/-- Embedding of `re.search` for the URL regex: some position of the
(lower-cased) text matches one of the alternatives. -/
def urlSearch : List Char → Bool
  | [] => false
  | c :: rest => urlPatternAt (c :: rest) || urlSearch rest

/-- The link detection of `delete_links`: a URL or text-link entity, or a
fallback case-insensitive regex search over `text + " " + caption`. -/
def msgHasLink (m : LinkMsg) : Bool :=
  let fromEntities := m.entities.any fun e =>
    match e with
    | .url => true
    | .textLink => true
    | .other => false
  if fromEntities then true
  else
    let t := m.text ++ " " ++ m.caption
    if t.isEmpty then false
    else urlSearch (t.data.map Char.toLower)

/-- Observable outcome of a `delete_links` invocation: whether the message
was deleted, the final warnings store, how many warnings were recorded,
how many group notifications were sent, how many direct-message
notifications were attempted, whether the notifications used the
admin-action framing, and whether the handler raised. -/
structure LinkResult where
  deleted : Bool
  warnStore : WarnStore
  warnRecorded : Nat
  groupMsgs : Nat
  dmAttempts : Nat
  adminFraming : Bool
  raised : Bool

/-- The enforcement tail of `delete_links` once the message is being
removed: admins get the admin-action notifications and no warning,
non-admins get a warning plus group and direct notifications.  The
`apply_warning` call is not wrapped in a try block, so its failure skips
the notifications and propagates (the count increment survives). -/
def linkEnforce (ws : WarnStore) (cfg : WarnConfig) (m : LinkMsg)
    (admin : Bool) (muteOk : Bool) : LinkResult :=
  if admin then ⟨true, ws, 0, 1, 1, true, false⟩
  else
    match apply_warning ws cfg m.chatId m.userId muteOk with
    | .ok r => ⟨true, r.store, 1, 1, 1, false, false⟩
    | .error w => ⟨true, w, 1, 0, 0, false, true⟩

/-- Embedding of `delete_links`.  After link detection the source checks
`if key in user_restrictions` and returns (keeping the message) when the
`link` flag of the present record is falsy; with no record at all it falls
through and deletes. -/
def delete_links (ur : RestrStore) (ws : WarnStore) (cfg : WarnConfig)
    (m : LinkMsg) (admin : Bool) (muteOk : Bool) : LinkResult :=
  if msgHasLink m = false then ⟨false, ws, 0, 0, 0, false, false⟩
  else
    match ur (m.chatId, m.userId) with
    | some r =>
      if r.link = false then ⟨false, ws, 0, 0, 0, false, false⟩
      else linkEnforce ws cfg m admin muteOk
    | none => linkEnforce ws cfg m admin muteOk

/-! ## Edit policy (`on_edited`) -/

/-- An edited message as seen by `on_edited`.  The `privileged` field
records the platform member status of the sender; the handler body never
consults it (it performs no `is_admin` lookup). -/
structure EditedMsg where
  chatId : Int
  userId : Int
  isGroup : Bool
  isBot : Bool
  privileged : Bool
deriving DecidableEq, Repr

/-- Observable outcome of an `on_edited` invocation. -/
structure EditResult where
  deleted : Bool
  warnStore : WarnStore
  warnRecorded : Nat
  groupMsgs : Nat
  dmAttempts : Nat
  raised : Bool

/-- Embedding of `on_edited`: guard on chat type, bot sender and the
per-chat toggle `edit_deletion_enabled.get(chat_id, False)`, then delete
(errors suppressed) and warn.  No privilege check appears anywhere on this
path. -/
def on_edited (enabled : Int → Bool) (ws : WarnStore) (cfg : WarnConfig)
    (m : EditedMsg) (muteOk : Bool) : EditResult :=
  if m.isGroup = false then ⟨false, ws, 0, 0, 0, false⟩
  else if m.isBot then ⟨false, ws, 0, 0, 0, false⟩
  else if enabled m.chatId = false then ⟨false, ws, 0, 0, 0, false⟩
  else
    match apply_warning ws cfg m.chatId m.userId muteOk with
    | .ok r => ⟨true, r.store, 1, 1, 1, false⟩
    | .error w => ⟨true, w, 1, 0, 0, true⟩

/-! ## ContentClassifier (`detect_nsfw_content`, `detect_nsfw_media`) -/

/-- The fixed denylist of `detect_nsfw_content`, transcribed entry for
entry (duplicates included) from the source. -/
def nsfw_keywords : List String := [
  "porn", "porno", "pornography", "xxx", "adult", "nude", "naked", "nudity",
  "boob", "boobs", "tits", "tit", "breast", "breasts", "cleavage",
  "pussy", "vagina", "clit", "clitoris", "labia", "cunt",
  "penis", "dick", "cock", "shaft", "member", "wang", "pecker",
  "ass", "butt", "booty", "arse", "arsehole", "anus", "anal",
  "sex", "sexual", "seduce", "seduction", "seductive",
  "blowjob", "bj", "fellatio", "suck", "oral", "rimjob", "analingus",
  "handjob", "fingering", "masturbation", "wank", "masturbate",
  "orgasm", "cum", "ejaculate", "jizz", "semen", "come",
  "fucking", "fucked", "fuck", "fucker", "fucks", "fck", "fuk",
  "horny", "aroused", "excited", "kinky", "pervert", "perverted",
  "xvideos", "xhamster", "pornhub", "youporn", "redtube", "tube8",
  "xnxx", "spankbang", "txxx", "beeg", "pornhd", "hqporner",
  "camgirl", "camboy", "webcam", "chaturbate", "bongacams",
  "stripchat", "camsoda", "imlive", "streamate",
  "escort", "hooker", "prostitute", "whore", "slut", "hoe", "thot",
  "stripper", "striptease", "lapdance", "pole dance",
  "call girl", "massage parlor", "happy ending",
  "adult dating", "sugar daddy", "sugar baby",
  "bdsm", "bondage", "dominance", "submission", "dom/sub",
  "fetish", "kink", "fisting", "gangbang", "orgy", "swinger",
  "master", "mistress", "slave", "submissive", "dominant",
  "leather", "latex", "chains", "cuffs", "collar",
  "weed", "marijuana", "cannabis", "joint", "bud", "420", "ganja",
  "cocaine", "coke", "crack", "snow", "blow", "white",
  "heroin", "smack", "brown", "horse",
  "meth", "crystal", "ice", "speed", "amphetamine",
  "ecstasy", "mdma", "e", "molly", "x",
  "lsd", "acid", "shrooms", "magic mushrooms", "psilocybin",
  "pcp", "angel dust", "ketamine", "special k",
  "adderall", "oxy", "oxycodone", "percocet", "vicodin",
  "xanax", "valium", "ativan", "ativan", "klonopin",
  "blood", "gore", "bloody", "slaughter", "massacre",
  "murder", "kill", "killing", "death", "dead", "corpse",
  "suicide", "suicidal", "hang myself", "shoot myself",
  "violence", "violent", "brutal", "brutality", "torture",
  "terrorist", "terrorism", "bomb", "explode", "explosion",
  "bitch", "bastard", "damn", "hell", "shit", "crap",
  "asshole", "dickhead", "cockhead", "shithead", "fuckhead",
  "prick", "twat", "minge", "bollocks", "knob", "bellend",
  "wanker", "tosser", "cunt", "slag", "slut", "whore",
  "nigger", "nigga", "chink", "gook", "spic", "kike",
  "fag", "faggot", "queer", "dyke", "tranny", "transvestite",
  "wop", "mick", "cracker", "redneck", "hillbilly",
  "pedo", "pedophile", "child porn", "cp", "loli", "shota",
  "bestiality", "zoophile", "animal sex",
  "incest", "taboo", "family sex",
  "rape", "rapist", "molest", "molestation"]

/-- Embedding of `detect_nsfw_content(text)`: empty text is not flagged;
otherwise the text is lower-cased and stripped and each denylist entry is
tested for plain substring containment. -/
def detect_nsfw_content (text : String) : Bool :=
  if text.data.isEmpty then false
  else
    let text_lower := trimChars (strLower text).data
    nsfw_keywords.any fun k => listInfix k.data text_lower

/-! ## Capability restriction check (`check_message_content`) -/

/-- A content-bearing group message as seen by `check_message_content`:
which media kinds are attached, the caption, and the remote file path the
platform resolves for the attached media (`get_file(...).file_path`,
empty when no media is attached). -/
structure ContentMsg where
  chatId : Int
  userId : Int
  isGroup : Bool
  sticker : Bool
  animation : Bool
  video : Bool
  photo : Bool
  document : Bool
  caption : String
  filePath : String

/-- Embedding of `detect_nsfw_media`: flags the caption or the resolved
file path of the attached media. -/
def detect_nsfw_media (m : ContentMsg) : Bool :=
  detect_nsfw_content m.caption || detect_nsfw_content m.filePath

/-- Which branch of `check_message_content` acted on the message. -/
inductive ContentAction where
  | noAct
  | stickerDeleted
  | gifDeleted
  | videoDeleted
  | nsfwDeleted
deriving DecidableEq, Repr

/-- Outcome of a `check_message_content` invocation. -/
structure ContentResult where
  action : ContentAction
  warnStore : WarnStore

/-- Embedding of `check_message_content`: skipped for admins and for
senders with no restriction record; otherwise the sticker, gif and video
branches consult the record flags (the `video` key is never present in
the source dictionaries, so `restrictions.get('video', False)` is the
constant `false`), and the final branch runs the NSFW media heuristic
when the chat has NSFW filtering enabled. -/
def check_message_content (ur : RestrStore) (ws : WarnStore)
    (cfg : WarnConfig) (nsfwEnabled : Int → Bool) (m : ContentMsg)
    (admin : Bool) (muteOk : Bool) : ContentResult :=
  if m.isGroup = false then ⟨.noAct, ws⟩
  else if admin then ⟨.noAct, ws⟩
  else
    match ur (m.chatId, m.userId) with
    | none => ⟨.noAct, ws⟩
    | some r =>
      if m.sticker && r.sticker then
        ⟨.stickerDeleted, postStore (apply_warning ws cfg m.chatId m.userId muteOk)⟩
      else if m.animation && r.gif then
        ⟨.gifDeleted, postStore (apply_warning ws cfg m.chatId m.userId muteOk)⟩
      else if m.video && false then
        ⟨.videoDeleted, postStore (apply_warning ws cfg m.chatId m.userId muteOk)⟩
      else if m.photo || m.video || m.animation || m.document then
        if nsfwEnabled m.chatId then
          if detect_nsfw_media m then
            ⟨.nsfwDeleted, postStore (apply_warning ws cfg m.chatId m.userId muteOk)⟩
          else ⟨.noAct, ws⟩
        else ⟨.noAct, ws⟩
      else ⟨.noAct, ws⟩

/-! ## Save-and-apply permission translation (`button_callback`) -/

/-- The `ChatPermissions` fields constructed by the apply branch of
`button_callback`. -/
structure Perms where
  can_send_messages : Bool
  can_send_audios : Bool
  can_send_documents : Bool
  can_send_photos : Bool
  can_send_videos : Bool
  can_send_video_notes : Bool
  can_send_voice_notes : Bool
  can_send_polls : Bool
  can_add_web_page_previews : Bool
deriving DecidableEq, Repr

/-- The full grant issued when no flag is set. -/
def fullPerms : Perms :=
  ⟨true, true, true, true, true, true, true, true, true⟩

/-- `any(restrictions.values())` over the eight flags. -/
def anyFlag (r : Restrictions) : Bool :=
  r.flood || r.spam || r.media || r.checks || r.night || r.sticker || r.gif || r.link

/-- Embedding of the `free_<id>_apply` branch of `button_callback`: the
translation of a saved restriction record into the platform permission
set handed to `restrict_chat_member`. -/
def button_callback_apply (r : Restrictions) : Perms :=
  if anyFlag r then
    let can_send_media := !r.media
    let can_send_links := !r.link && !r.spam
    ⟨true, can_send_media, can_send_media, can_send_media, can_send_media,
      can_send_media, can_send_media, !r.spam, can_send_links⟩
  else fullPerms

/-! ## KeywordFilterTable (`filters_store`, `filter_cmd`, `stopfilter_cmd`,
`filters_cmd`, the matching loop of `check_filters`) -/

/-- Stored filter payload: media kind, file handle and caption. -/
structure FilterData where
  mediaKind : String
  file_id : String
  caption : String
deriving DecidableEq, Repr

/-- A `filters_store` key: `(chat_id, keyword)`. -/
abbrev FKey := Int × String

/-- `filters_store` embedded as an insertion-ordered association list,
matching the iteration and update semantics of a Python dict.  Reachable
stores have pairwise distinct keys. -/
abbrev FilterStore := List (FKey × FilterData)

/-- Python dict assignment `d[k] = v`: replace the value in place when
the key is present, append a new entry otherwise. -/
def dictSet (st : FilterStore) (k : FKey) (v : FilterData) : FilterStore :=
  if st.any (fun p => p.1 = k) then
    st.map fun p => if p.1 = k then (k, v) else p
  else st ++ [(k, v)]

/-- Python dict deletion `del d[k]`. -/
def dictDel (st : FilterStore) (k : FKey) : FilterStore :=
  st.filter fun p => p.1 ≠ k

/-- Is the key present (`k in d`)? -/
def hasKey (st : FilterStore) (k : FKey) : Bool :=
  st.any fun p => p.1 = k

/-- Keyword normalisation shared by `filter_cmd` and `stopfilter_cmd`:
`" ".join(args).lower()`. -/
def normKeyword (args : List String) : String :=
  strLower (String.intercalate " " args)

/-- The store mutation of `filter_cmd` (after its admin, reply and media
guards): unconditional assignment at the normalised key. -/
def filter_cmd (st : FilterStore) (chat : Int) (args : List String)
    (d : FilterData) : FilterStore :=
  dictSet st (chat, normKeyword args) d

/-- The store mutation of `stopfilter_cmd`: delete when present, report
absence otherwise. -/
def stopfilter_cmd (st : FilterStore) (chat : Int) (args : List String) :
    FilterStore × Bool :=
  let key := (chat, normKeyword args)
  if hasKey st key then (dictDel st key, true) else (st, false)

/-- The per-group listing of `filters_cmd`: all entries whose key starts
with the chat id. -/
def listFilters (st : FilterStore) (chat : Int) : FilterStore :=
  st.filter fun p => p.1.1 = chat

/-- The matching loop of `check_filters`: the first stored entry (in
iteration order) whose chat matches and whose keyword is contained in the
lower-cased text; at most one entry is ever actioned. -/
def check_filters_match (st : FilterStore) (chat : Int) (text : String) :
    Option (FKey × FilterData) :=
  st.find? fun p => decide (p.1.1 = chat) && strContains (strLower text) p.1.2

/-! ## Configuration commands (`set_warn_limit`, `set_mute_time`,
`set_service_del_time`) -/

/-- The synchronous reply classes of a configuration command. -/
inductive CmdReply where
  | ok
  | unauthorized
  | showSettings
  | usage
  | invalidNumber
  | outOfRange
deriving DecidableEq, Repr

/-- Value of an all-digit character list, as computed by Python `int`. -/
def digitsVal (l : List Char) : Option Nat :=
  if l.isEmpty then none
  else if l.all Char.isDigit then
    some (l.foldl (fun acc c => acc * 10 + (c.toNat - 48)) 0)
  else none

/-- Embedding of Python `int(s)` on decimal strings: surrounding
whitespace is ignored, one optional sign, then at least one digit;
anything else raises `ValueError` (`none`). -/
def pyInt (s : String) : Option Int :=
  match trimChars s.data with
  | '-' :: rest => (digitsVal rest).map fun n => -(n : Int)
  | '+' :: rest => (digitsVal rest).map fun n => (n : Int)
  | l => (digitsVal l).map fun n => (n : Int)

/-- Embedding of Python `s.isdigit()` for ASCII decimal input. -/
def pyIsDigit (s : String) : Bool :=
  !s.data.isEmpty && s.data.all Char.isDigit

/-- `warning_settings` as mutated by the two warning commands. -/
abbrev WarnSettingsStore := Int → Option WarnSettings

/-- Embedding of `set_warn_limit`: admin gate, settings display on no
arguments, `int` parse with `ValueError` reply, positivity check, then a
write that materialises the default record before updating only the
threshold field. -/
def set_warn_limit (st : WarnSettingsStore) (chat : Int) (admin : Bool)
    (args : List String) : WarnSettingsStore × CmdReply :=
  if admin = false then (st, .unauthorized)
  else
    match args with
    | [] => (st, .showSettings)
    | a :: _ =>
      match pyInt a with
      | none => (st, .invalidNumber)
      | some t =>
        if t ≤ 0 then (st, .outOfRange)
        else
          let s0 := (st chat).getD ⟨3, 24⟩
          (fun c => if c = chat then some ⟨t, s0.mute_duration⟩ else st c, .ok)

/-- Embedding of `set_mute_time`, symmetric to `set_warn_limit` on the
mute-duration field. -/
def set_mute_time (st : WarnSettingsStore) (chat : Int) (admin : Bool)
    (args : List String) : WarnSettingsStore × CmdReply :=
  if admin = false then (st, .unauthorized)
  else
    match args with
    | [] => (st, .showSettings)
    | a :: _ =>
      match pyInt a with
      | none => (st, .invalidNumber)
      | some h =>
        if h ≤ 0 then (st, .outOfRange)
        else
          let s0 := (st chat).getD ⟨3, 24⟩
          (fun c => if c = chat then some ⟨s0.threshold, h⟩ else st c, .ok)

/-- A `service_msg_settings` entry. -/
structure SvcSettings where
  enabled : Bool
  delete_after : Int
deriving DecidableEq, Repr

/-- `service_msg_settings` keyed by chat. -/
abbrev SvcStore := Int → Option SvcSettings

/-- Embedding of `set_service_del_time`: admin gate, `isdigit` argument
validation, minimum of one second, then a write that creates the record
with `enabled = True` or updates only the delay field. -/
def set_service_del_time (st : SvcStore) (chat : Int) (admin : Bool)
    (args : List String) : SvcStore × CmdReply :=
  if admin = false then (st, .unauthorized)
  else
    match args with
    | [] => (st, .usage)
    | a :: _ =>
      if pyIsDigit a = false then (st, .usage)
      else
        let seconds : Int := ((digitsVal a.data).getD 0 : Nat)
        if seconds < 1 then (st, .outOfRange)
        else
          match st chat with
          | none => (fun c => if c = chat then some ⟨true, seconds⟩ else st c, .ok)
          | some s0 =>
            (fun c => if c = chat then some ⟨s0.enabled, seconds⟩ else st c, .ok)

/-! ## Concrete states used by counterexamples and witnesses -/

/-- The empty warnings store (no warning ever recorded). -/
def wsZero : WarnStore := fun _ => 0

/-- A warnings store in which chat 0 holds two warnings for user 0. -/
def wsTwo : WarnStore := fun k => if k = ((0 : Int), (0 : Int)) then 2 else 0

/-- A group with no warning settings ever configured (defaults apply). -/
def cfgNone : WarnConfig := fun _ => none

/-- An empty restriction matrix. -/
def noRecord : RestrStore := fun _ => none

/-- A restriction matrix holding exactly one all-false record, for user 1
in chat 0. -/
def allFalseAt : RestrStore :=
  fun k => if k = ((0 : Int), (1 : Int)) then some allFalse else none

/-- The link-policy scenario message of the spec: a non-command text
message from user 1 in chat 0 with no URL entities, whose text triggers
the fallback regex. -/
def scenarioMsg : LinkMsg := ⟨0, 1, [], "check this out http://example.com", ""⟩

/-- An edited group message from a privileged, non-bot sender. -/
def editedByAdmin : EditedMsg := ⟨0, 5, true, false, true⟩

/-- Edit deletion enabled for every chat. -/
def enabledAll : Int → Bool := fun _ => true

/-- A restriction record with only the `link` flag set. -/
def linkOnly : Restrictions := ⟨false, false, false, false, false, false, false, true⟩

/-- An empty warning-settings store. -/
def wstNone : WarnSettingsStore := fun _ => none

/-- An empty service-message-settings store. -/
def sstNone : SvcStore := fun _ => none

/-! ## C1: the warning-counter invariant -/

/--
C1 (counterexample).  The claim states that the stored count is never
observably at or above the threshold after a `RecordWarning` call, even
when the platform-side mute action fails.  In the source the counter
reset is placed after the `restrict_chat_member` call, so a failing mute
raises before the reset: starting from two stored warnings under the
default threshold 3, a third warning with a failing mute leaves the
stored count at 3, equal to the threshold and visible to `GetCount`.
-/
theorem c1_counterexample :
    storedAfter (apply_warning wsTwo cfgNone 0 0 false) 0 0 = 3 ∧
    (warnParams cfgNone 0).threshold = 3 ∧
    ¬ ((storedAfter (apply_warning wsTwo cfgNone 0 0 false) 0 0 : Int) <
        (warnParams cfgNone 0).threshold) ∧
    warnOk (apply_warning wsTwo cfgNone 0 0 false) = false := by
  decide

/--
C1 (amended).  When `apply_warning` returns normally the stored count is
back in range: 0 on a mute decision, and strictly below the threshold
otherwise.  But when the mute action fails, the call raises before the
reset line, leaving the stored count at the incremented value, at or
above the threshold — the reset is skipped (not merely "not rolled
back") on a mute failure.
-/
theorem c1_warning_invariant (ws : WarnStore) (cfg : WarnConfig)
    (chat target : Int) (muteOk : Bool) :
    (warnMuted (apply_warning ws cfg chat target muteOk) = some true →
      storedAfter (apply_warning ws cfg chat target muteOk) chat target = 0) ∧
    (warnMuted (apply_warning ws cfg chat target muteOk) = some false →
      (storedAfter (apply_warning ws cfg chat target muteOk) chat target : Int) <
        (warnParams cfg chat).threshold) ∧
    (warnOk (apply_warning ws cfg chat target muteOk) = false →
      muteOk = false ∧
      (storedAfter (apply_warning ws cfg chat target muteOk) chat target : Int) ≥
        (warnParams cfg chat).threshold ∧
      storedAfter (apply_warning ws cfg chat target muteOk) chat target =
        getCount ws chat target + 1) := by
  by_cases hthr : (warnParams cfg chat).threshold ≤ (ws (chat, target) : Int) + 1
  · by_cases hm : muteOk = true
    · simp [apply_warning, warnMuted, warnOk, storedAfter, postStore, getCount, hthr, hm]
    · simp only [Bool.not_eq_true] at hm
      simp [apply_warning, warnMuted, warnOk, storedAfter, postStore, getCount, hthr, hm]
  · simp [apply_warning, warnMuted, warnOk, storedAfter, postStore, getCount, hthr]
    omega

/--
C1 (witness for the amended theorem): at the concrete failing input of
the counterexample, the error branch leaves the count at the previous
value plus one, at or above the threshold.
-/
theorem c1_warning_invariant_witness :
    false = false ∧
    (storedAfter (apply_warning wsTwo cfgNone 0 0 false) 0 0 : Int) ≥
      (warnParams cfgNone 0).threshold ∧
    storedAfter (apply_warning wsTwo cfgNone 0 0 false) 0 0 =
      getCount wsTwo 0 0 + 1 :=
  (c1_warning_invariant wsTwo cfgNone 0 0 false).2.2 (by decide)

/-! ## C5: the escalation sequence -/

/-- The warnings store after `n` consecutive successful `apply_warning`
calls for the same `(chat, target)` pair, starting from the empty store. -/
def warnIter (cfg : WarnConfig) (chat target : Int) : Nat → WarnStore
  | 0 => fun _ => 0
  | n + 1 => postStore (apply_warning (warnIter cfg chat target n) cfg chat target true)

/-- Below the threshold, each successful call moves the stored count from
`k` to `k + 1`: after `k` sub-threshold calls the stored count is `k`. -/
theorem warnIter_getCount (cfg : WarnConfig) (chat target : Int) :
    ∀ k : Nat, (k : Int) < (warnParams cfg chat).threshold →
      getCount (warnIter cfg chat target k) chat target = k := by
  intro k
  induction k with
  | zero => intro _; rfl
  | succ n ih =>
    intro hk
    have hn : (n : Int) < (warnParams cfg chat).threshold := by push_cast at hk ⊢; omega
    have h0 : warnIter cfg chat target n (chat, target) = n := ih hn
    have hlt : ¬ (warnParams cfg chat).threshold ≤ (n : Int) + 1 := by
      push_cast at hk ⊢; omega
    show getCount (postStore (apply_warning (warnIter cfg chat target n) cfg chat target true))
        chat target = n + 1
    simp [apply_warning, postStore, getCount, hlt, h0]

/--
C5 (confirmed).  Starting from a zero count under warning settings with
threshold `tn ≥ 1` and mute duration `md` (the defaults being 3 and 24),
each of the first `tn - 1` `RecordWarning` calls returns the
post-increment count with `muted = false`; after them `GetCount` returns
`tn - 1`; the `tn`-th call returns `muted = true` with a mute of `md`
hours issued through the gateway, and a subsequent `GetCount` returns 0.
-/
theorem c5_escalation (cfg : WarnConfig) (chat target : Int) (tn md : Nat)
    (hset : warnParams cfg chat = ⟨(tn : Int), (md : Int)⟩) (ht : 1 ≤ tn) :
    (∀ k : Nat, k + 1 < tn →
      warnCount (apply_warning (warnIter cfg chat target k) cfg chat target true) =
        some (k + 1) ∧
      warnMuted (apply_warning (warnIter cfg chat target k) cfg chat target true) =
        some false) ∧
    getCount (warnIter cfg chat target (tn - 1)) chat target = tn - 1 ∧
    warnCount (apply_warning (warnIter cfg chat target (tn - 1)) cfg chat target true) =
      some tn ∧
    warnMuted (apply_warning (warnIter cfg chat target (tn - 1)) cfg chat target true) =
      some true ∧
    warnMuteHours (apply_warning (warnIter cfg chat target (tn - 1)) cfg chat target true) =
      some (some (md : Int)) ∧
    getCount (postStore (apply_warning (warnIter cfg chat target (tn - 1)) cfg chat target true))
      chat target = 0 := by
  have hthr : (warnParams cfg chat).threshold = (tn : Int) := by rw [hset]
  have hmd : (warnParams cfg chat).mute_duration = (md : Int) := by rw [hset]
  refine ⟨?_, ?_, ?_⟩
  · intro k hk
    have hklt : (k : Int) < (warnParams cfg chat).threshold := by
      rw [hthr]; omega
    have h0 : warnIter cfg chat target k (chat, target) = k :=
      warnIter_getCount cfg chat target k hklt
    have hlt : ¬ (warnParams cfg chat).threshold ≤ (k : Int) + 1 := by
      rw [hthr]; omega
    constructor <;> simp [apply_warning, warnCount, warnMuted, hlt, h0]
  · exact warnIter_getCount cfg chat target (tn - 1)
      (by rw [hthr]; omega)
  · have hcount := warnIter_getCount cfg chat target (tn - 1)
      (by rw [hthr]; omega)
    have h0 : warnIter cfg chat target (tn - 1) (chat, target) = tn - 1 := hcount
    have htn : tn - 1 + 1 = tn := by omega
    have hge : (warnParams cfg chat).threshold ≤ ((tn : Nat) : Int) := le_of_eq hthr
    refine ⟨?_, ?_, ?_, ?_⟩ <;>
      simp [apply_warning, warnCount, warnMuted, warnMuteHours, postStore, getCount,
        hge, h0, htn, hmd]

/--
C5 (witness): at the default settings (threshold 3, duration 24 hours,
read from an unconfigured group), the first two warnings leave the count
at 2, the third call reports the mute with 24 hours, and the count resets
to 0.
-/
theorem c5_escalation_witness :
    getCount (warnIter cfgNone 0 0 2) 0 0 = 2 ∧
    warnCount (apply_warning (warnIter cfgNone 0 0 2) cfgNone 0 0 true) = some 3 ∧
    warnMuted (apply_warning (warnIter cfgNone 0 0 2) cfgNone 0 0 true) = some true ∧
    warnMuteHours (apply_warning (warnIter cfgNone 0 0 2) cfgNone 0 0 true) =
      some (some 24) ∧
    getCount (postStore (apply_warning (warnIter cfgNone 0 0 2) cfgNone 0 0 true)) 0 0 = 0 := by
  have h := c5_escalation cfgNone 0 0 3 24 (by decide) (by decide)
  exact ⟨h.2.1, h.2.2.1, h.2.2.2.1, h.2.2.2.2.1, h.2.2.2.2.2⟩

/-! ## C4: the link policy -/

/-- With a successful mute gateway, `apply_warning` always returns. -/
theorem apply_warning_ok_of_muteOk (ws : WarnStore) (cfg : WarnConfig)
    (chat target : Int) : ∃ r, apply_warning ws cfg chat target true = .ok r := by
  unfold apply_warning
  dsimp only
  split
  · exact ⟨_, rfl⟩
  · exact ⟨_, rfl⟩

/--
C4 (confirmed).  For every group message carrying a link (by entity or by
the fallback regex) whose sender has no restriction record with the
`link` flag false, `delete_links` deletes the message; a non-privileged
sender gets exactly one recorded warning, one group notification and one
attempted direct notification; a privileged sender gets the admin-action
framing on both notifications and no recorded warning.
-/
theorem c4_link_policy (ur : RestrStore) (ws : WarnStore) (cfg : WarnConfig)
    (m : LinkMsg) (admin : Bool)
    (hlink : msgHasLink m = true)
    (hfree : ∀ r, ur (m.chatId, m.userId) = some r → r.link = true) :
    (delete_links ur ws cfg m admin true).deleted = true ∧
    (admin = false →
      (delete_links ur ws cfg m admin true).warnRecorded = 1 ∧
      (delete_links ur ws cfg m admin true).groupMsgs = 1 ∧
      (delete_links ur ws cfg m admin true).dmAttempts = 1 ∧
      (delete_links ur ws cfg m admin true).adminFraming = false) ∧
    (admin = true →
      (delete_links ur ws cfg m admin true).warnRecorded = 0 ∧
      (delete_links ur ws cfg m admin true).groupMsgs = 1 ∧
      (delete_links ur ws cfg m admin true).dmAttempts = 1 ∧
      (delete_links ur ws cfg m admin true).adminFraming = true) := by
  have henf : ∀ b, (linkEnforce ws cfg m b true).deleted = true ∧
      (b = false →
        (linkEnforce ws cfg m b true).warnRecorded = 1 ∧
        (linkEnforce ws cfg m b true).groupMsgs = 1 ∧
        (linkEnforce ws cfg m b true).dmAttempts = 1 ∧
        (linkEnforce ws cfg m b true).adminFraming = false) ∧
      (b = true →
        (linkEnforce ws cfg m b true).warnRecorded = 0 ∧
        (linkEnforce ws cfg m b true).groupMsgs = 1 ∧
        (linkEnforce ws cfg m b true).dmAttempts = 1 ∧
        (linkEnforce ws cfg m b true).adminFraming = true) := by
    intro b
    cases b with
    | true => simp [linkEnforce]
    | false =>
      obtain ⟨r, hr⟩ := apply_warning_ok_of_muteOk ws cfg m.chatId m.userId
      simp [linkEnforce, hr]
  have hdel : delete_links ur ws cfg m admin true = linkEnforce ws cfg m admin true := by
    unfold delete_links
    rw [hlink]
    cases hur : ur (m.chatId, m.userId) with
    | none => simp
    | some r =>
      have := hfree r hur
      simp [this]
  rw [hdel]
  exact henf admin

/--
C4 (witness): the spec scenario — a non-privileged user with no
restriction record posts "check this out http://example.com" — results in
deletion, one recorded warning, one group notification and one attempted
direct notification.
-/
theorem c4_link_policy_witness :
    (delete_links noRecord wsZero cfgNone scenarioMsg false true).deleted = true ∧
    (delete_links noRecord wsZero cfgNone scenarioMsg false true).warnRecorded = 1 ∧
    (delete_links noRecord wsZero cfgNone scenarioMsg false true).groupMsgs = 1 ∧
    (delete_links noRecord wsZero cfgNone scenarioMsg false true).dmAttempts = 1 ∧
    (delete_links noRecord wsZero cfgNone scenarioMsg false true).adminFraming = false := by
  have h := c4_link_policy noRecord wsZero cfgNone scenarioMsg false (by decide)
    (fun r hr => nomatch hr)
  exact ⟨h.1, (h.2.1 rfl).1, (h.2.1 rfl).2.1, (h.2.1 rfl).2.2.1, (h.2.1 rfl).2.2.2⟩

/-! ## C3: absent versus all-false restriction records -/

/--
C3 (counterexample).  The claim says an absent RestrictionSet entry
behaves identically to an all-false entry in every policy operation, in
particular the link policy.  In `delete_links` the two states differ: the
scenario message is deleted when the sender has no record, but kept when
the sender has an all-false record (an all-false `link` flag reads as
"allow links").
-/
theorem c3_counterexample :
    (delete_links noRecord wsZero cfgNone scenarioMsg false true).deleted = true ∧
    (delete_links allFalseAt wsZero cfgNone scenarioMsg false true).deleted = false := by
  decide

/--
C3 (amended).  An absent entry and an all-false entry are interchangeable
in the capability-restriction check whenever NSFW filtering is disabled
for the chat (both produce no action; with filtering enabled, the NSFW
media branch runs only when a record exists), but not in the link policy:
a message with a link is deleted when the sender has no record and kept
when the sender has an all-false record.
-/
theorem c3_absent_vs_allfalse (ws : WarnStore) (cfg : WarnConfig)
    (nsfwEnabled : Int → Bool) (mc : ContentMsg) (ml : LinkMsg)
    (admin muteOk : Bool) :
    (nsfwEnabled mc.chatId = false →
      check_message_content (fun _ => none) ws cfg nsfwEnabled mc admin muteOk =
        check_message_content
          (fun k => if k = (mc.chatId, mc.userId) then some allFalse else none)
          ws cfg nsfwEnabled mc admin muteOk) ∧
    (msgHasLink ml = true →
      (delete_links (fun _ => none) ws cfg ml admin muteOk).deleted = true ∧
      (delete_links
          (fun k => if k = (ml.chatId, ml.userId) then some allFalse else none)
          ws cfg ml admin muteOk).deleted = false) := by
  constructor
  · intro hn
    unfold check_message_content
    simp [allFalse, hn]
  · intro hl
    unfold delete_links
    rw [hl]
    constructor
    · simp [linkEnforce]
      cases admin with
      | true => simp
      | false =>
        cases h : apply_warning ws cfg ml.chatId ml.userId muteOk with
        | ok r => simp
        | error w => simp
    · simp [allFalse]

/--
C3 (witness for the amended theorem): at the concrete scenario input, no
record means the link message is deleted and an all-false record means it
is kept, while the capability check ignores the difference.
-/
theorem c3_absent_vs_allfalse_witness :
    (delete_links (fun _ => none) wsZero cfgNone scenarioMsg false true).deleted = true ∧
    (delete_links
        (fun k => if k = ((0 : Int), (1 : Int)) then some allFalse else none)
        wsZero cfgNone scenarioMsg false true).deleted = false :=
  (c3_absent_vs_allfalse wsZero cfgNone (fun _ => false)
    ⟨0, 1, true, false, false, false, false, false, "", ""⟩ scenarioMsg false true).2
    (by decide)

/-! ## C2: the edit policy -/

/--
C2 (counterexample).  The claim says edited messages from privileged
senders are not deleted or warned.  `on_edited` performs no privilege
check at all: with edit deletion enabled, an edited group message from a
privileged, non-bot sender is deleted and its sender warned.
-/
theorem c2_counterexample :
    editedByAdmin.privileged = true ∧
    (on_edited enabledAll wsZero cfgNone editedByAdmin true).deleted = true ∧
    (on_edited enabledAll wsZero cfgNone editedByAdmin true).warnRecorded = 1 := by
  decide

/--
C2 (amended).  The edit policy applies only to edited messages in groups,
only when the edit-deletion toggle is enabled, and only to non-bot
senders — but regardless of privilege: every such edit is deleted and the
sender warned unconditionally (content is not re-inspected), privileged
senders included.
-/
theorem c2_edit_policy (enabled : Int → Bool) (ws : WarnStore)
    (cfg : WarnConfig) (m : EditedMsg) (muteOk : Bool) :
    (enabled m.chatId = false ∨ m.isGroup = false ∨ m.isBot = true →
      (on_edited enabled ws cfg m muteOk).deleted = false ∧
      (on_edited enabled ws cfg m muteOk).warnRecorded = 0 ∧
      (on_edited enabled ws cfg m muteOk).warnStore = ws) ∧
    (enabled m.chatId = true → m.isGroup = true → m.isBot = false →
      (on_edited enabled ws cfg m muteOk).deleted = true ∧
      (on_edited enabled ws cfg m muteOk).warnRecorded = 1) := by
  constructor
  · intro h
    rcases h with h | h | h
    · unfold on_edited
      rcases hg : m.isGroup with _ | _ <;> rcases hb : m.isBot with _ | _ <;>
        simp [h, hg, hb]
    · simp [on_edited, h]
    · unfold on_edited
      rcases hg : m.isGroup with _ | _ <;> simp [h, hg]
  · intro he hg hb
    unfold on_edited
    rw [he, hg, hb]
    cases hw : apply_warning ws cfg m.chatId m.userId muteOk with
    | ok r => simp [hw]
    | error w => simp [hw]

/--
C2 (witness for the amended theorem): with the toggle enabled, the edited
message of a privileged non-bot sender is deleted and warned.
-/
theorem c2_edit_policy_witness :
    (on_edited enabledAll wsZero cfgNone editedByAdmin true).deleted = true ∧
    (on_edited enabledAll wsZero cfgNone editedByAdmin true).warnRecorded = 1 :=
  (c2_edit_policy enabledAll wsZero cfgNone editedByAdmin true).2
    (by decide) (by decide) (by decide)

/-! ## C6: the save-and-apply permission translation -/

/--
C6 (counterexample).  The claim says polls are denied whenever the `spam`
or `link` flag is set.  With only the `link` flag set the translation
still grants poll sending (`can_send_polls` is computed from the `spam`
flag alone), so the claim fails.
-/
theorem c6_counterexample :
    (linkOnly.spam || linkOnly.link) = true ∧
    (button_callback_apply linkOnly).can_send_polls = true := by
  decide

/--
C6 (amended).  If no flag is set, full capabilities are granted;
otherwise media sending is denied exactly when the `media` flag is set,
link previews are denied when the `spam` or `link` flag is set, polls are
denied exactly when the `spam` flag is set, and text sending is always
granted.
-/
theorem c6_apply_translation (r : Restrictions) :
    (anyFlag r = false → button_callback_apply r = fullPerms) ∧
    (anyFlag r = true →
      (button_callback_apply r).can_send_messages = true ∧
      (button_callback_apply r).can_send_audios = !r.media ∧
      (button_callback_apply r).can_send_documents = !r.media ∧
      (button_callback_apply r).can_send_photos = !r.media ∧
      (button_callback_apply r).can_send_videos = !r.media ∧
      (button_callback_apply r).can_send_video_notes = !r.media ∧
      (button_callback_apply r).can_send_voice_notes = !r.media ∧
      (button_callback_apply r).can_send_polls = !r.spam ∧
      (button_callback_apply r).can_add_web_page_previews = (!r.link && !r.spam)) := by
  constructor <;> intro h <;> simp [button_callback_apply, h]

/--
C6 (witness for the amended theorem): the all-false record maps to the
full grant, and the link-only record keeps polls allowed while denying
previews.
-/
theorem c6_apply_translation_witness :
    button_callback_apply allFalse = fullPerms ∧
    (button_callback_apply linkOnly).can_send_polls = !linkOnly.spam ∧
    (button_callback_apply linkOnly).can_add_web_page_previews =
      (!linkOnly.link && !linkOnly.spam) :=
  ⟨(c6_apply_translation allFalse).1 (by decide),
    ((c6_apply_translation linkOnly).2 (by decide)).2.2.2.2.2.2.2.1,
    ((c6_apply_translation linkOnly).2 (by decide)).2.2.2.2.2.2.2.2⟩

/-! ## C8: the content classifier -/

/-- No denylist entry is the empty string. -/
theorem nsfw_keywords_nonempty :
    nsfw_keywords.all (fun k => !k.data.isEmpty) = true := by
  decide

/-- The classifier is exactly substring containment of some denylist
entry in the lower-cased, stripped text (the empty-text early return
coincides with this characterisation because no entry is empty). -/
theorem detect_nsfw_content_eq (s : String) :
    detect_nsfw_content s =
      nsfw_keywords.any (fun k => listInfix k.data (trimChars (strLower s).data)) := by
  unfold detect_nsfw_content
  by_cases h : s.data.isEmpty
  · have hd : s.data = [] := by simpa [List.isEmpty_iff] using h
    have hlow : (strLower s).data = [] := by simp [strLower, hd]
    rw [if_pos h, hlow]
    have : ∀ k ∈ nsfw_keywords, ¬ (listInfix k.data (trimChars []) = true) := by
      intro k hk
      have hne := List.all_eq_true.mp nsfw_keywords_nonempty k hk
      simp [trimChars, listInfix]
      simpa using hne
    symm
    rw [List.any_eq_false]
    simpa using this
  · rw [if_neg h]

/--
C8 (confirmed).  `detect_nsfw_content` is case-insensitive pure substring
containment against the fixed denylist, with no tokenization or word
boundaries: the flagged status is determined by the case-folded text
alone, and "XXXmovie" is flagged although "xxx" only occurs as the prefix
fragment of a larger token.
-/
theorem c8_classifier :
    detect_nsfw_content "XXXmovie" = true ∧
    (∀ s : String, detect_nsfw_content s =
      nsfw_keywords.any (fun k => listInfix k.data (trimChars (strLower s).data))) ∧
    (∀ s t : String, (strLower s).data = (strLower t).data →
      detect_nsfw_content s = detect_nsfw_content t) := by
  refine ⟨by decide, detect_nsfw_content_eq, ?_⟩
  intro s t h
  rw [detect_nsfw_content_eq, detect_nsfw_content_eq, h]

/--
C8 (witness): differently-cased spellings of the same word are classified
identically.
-/
theorem c8_classifier_witness :
    detect_nsfw_content "XXXmovie" = detect_nsfw_content "xxxMOVIE" :=
  c8_classifier.2.2 "XXXmovie" "xxxMOVIE" (by decide)

/-! ## C7: the keyword filter table -/

/-- The values stored at a given key (a Python dict holds at most one). -/
def entriesAt (st : FilterStore) (k : FKey) : List FilterData :=
  (st.filter fun p => p.1 = k).map Prod.snd

/-- A sample filter payload for witnesses. -/
def dEx : FilterData := ⟨"photo", "file1", ""⟩

/-- If no entry of `st` has key `k`, filtering for `k` yields nothing. -/
theorem filter_key_nil (k : FKey) :
    ∀ st : FilterStore, (∀ q ∈ st, q.1 ≠ k) →
      (st.filter fun p => p.1 = k) = [] := by
  intro st h
  rw [List.filter_eq_nil_iff]
  intro a ha
  simpa using h a ha

/-- If no entry of `st` has key `k`, the in-place replacement map of
`dictSet` is the identity. -/
theorem map_replace_id (k : FKey) (d : FilterData) :
    ∀ st : FilterStore, (∀ q ∈ st, q.1 ≠ k) →
      (st.map fun p => if p.1 = k then (k, d) else p) = st := by
  intro st h
  induction st with
  | nil => rfl
  | cons p rest ih =>
    have hp : p.1 ≠ k := h p (by simp)
    have hrest := ih fun q hq => h q (by simp [hq])
    simp [hp, hrest]

/-- Key-uniqueness lets `dictSet` on a present key leave exactly the
overwritten entry at that key. -/
theorem filter_map_replace (k : FKey) (d : FilterData) :
    ∀ st : FilterStore, (st.map Prod.fst).Nodup → hasKey st k = true →
      ((st.map fun p => if p.1 = k then (k, d) else p).filter fun p => p.1 = k) =
        [(k, d)] := by
  intro st
  induction st with
  | nil => intro _ hpres; simp [hasKey] at hpres
  | cons p rest ih =>
    intro hnd hpres
    simp only [List.map_cons, List.nodup_cons] at hnd
    obtain ⟨hp, hrest⟩ := hnd
    by_cases hk : p.1 = k
    · have hrestno : ∀ q ∈ rest, q.1 ≠ k := by
        intro q hq hqk
        exact hp (hk ▸ hqk ▸ List.mem_map_of_mem Prod.fst hq)
      have hid := map_replace_id k d rest hrestno
      have hnil := filter_key_nil k rest hrestno
      simp [hk, hid, hnil]
    · have hpres2 : hasKey rest k = true := by
        simp only [hasKey, List.any_cons] at hpres
        simpa [hasKey, hk] using hpres
      have := ih hrest hpres2
      simp [hk, this]

/-- Deleting an absent key is the identity. -/
theorem dictDel_id (k : FKey) :
    ∀ st : FilterStore, (∀ q ∈ st, q.1 ≠ k) → dictDel st k = st := by
  intro st h
  induction st with
  | nil => rfl
  | cons p rest ih =>
    have hp : p.1 ≠ k := h p (by simp)
    have hrest := ih fun q hq => h q (by simp [hq])
    unfold dictDel at hrest ⊢
    simp only [List.filter_cons]
    rw [if_pos (by simpa using hp), hrest]

/-- Removing a freshly appended entry restores the prior store when its
key was absent before. -/
theorem dictDel_restore (k : FKey) (d : FilterData) :
    ∀ st : FilterStore, (∀ q ∈ st, q.1 ≠ k) →
      dictDel (st ++ [(k, d)]) k = st := by
  intro st hno
  have h1 : dictDel st k = st := dictDel_id k st hno
  unfold dictDel at h1 ⊢
  rw [List.filter_append, h1]
  simp

/-! this is the single theorem for claim C7 -/

/--
C7 (confirmed).  Over any reachable filter store (keys pairwise
distinct): `Set` leaves exactly one, overwritten entry at the normalised
`(group, keyword)` key; `Set` immediately followed by `Remove` of the
same keyword restores the prior store when the key was absent, and in
particular leaves the per-group `List` empty when it was empty before;
and `MatchFirst` never returns a removed keyword.
-/
theorem c7_filter_set_remove (st : FilterStore) (chat : Int)
    (args : List String) (d : FilterData) (text : String)
    (hnd : (st.map Prod.fst).Nodup) :
    entriesAt (filter_cmd st chat args d) (chat, normKeyword args) = [d] ∧
    (hasKey st (chat, normKeyword args) = false →
      (stopfilter_cmd (filter_cmd st chat args d) chat args).1 = st) ∧
    (listFilters st chat = [] →
      listFilters ((stopfilter_cmd (filter_cmd st chat args d) chat args).1) chat = []) ∧
    (∀ e, check_filters_match ((stopfilter_cmd st chat args).1) chat text = some e →
      e.1 ≠ (chat, normKeyword args)) := by
  set key := (chat, normKeyword args) with hkey
  have habs_no : hasKey st key = false → ∀ q ∈ st, q.1 ≠ key := by
    intro h q hq
    have := List.any_eq_false.mp h q hq
    simpa using this
  have hset_absent : hasKey st key = false →
      filter_cmd st chat args d = st ++ [(key, d)] := by
    intro h
    unfold filter_cmd dictSet
    rw [← hkey]
    simp only [hasKey] at h
    rw [if_neg (by rw [h]; simp)]
  refine ⟨?_, ?_, ?_, ?_⟩
  · -- exactly one, overwritten entry at the key
    unfold filter_cmd dictSet
    rw [← hkey]
    by_cases h : st.any fun p => p.1 = key
    · rw [if_pos h]
      unfold entriesAt
      rw [filter_map_replace key d st hnd (by simpa [hasKey] using h)]
      rfl
    · rw [if_neg h]
      unfold entriesAt
      have hfalse : (st.any fun p => p.1 = key) = false := Bool.eq_false_iff.mpr h
      have hno : ∀ q ∈ st, q.1 ≠ key := by
        intro q hq
        have := List.any_eq_false.mp hfalse q hq
        simpa using this
      rw [List.filter_append, filter_key_nil key st hno]
      simp
  · -- Set then Remove restores the prior store when the key was absent
    intro habs
    rw [hset_absent habs]
    unfold stopfilter_cmd
    rw [← hkey]
    have hpres : hasKey (st ++ [(key, d)]) key = true := by
      simp [hasKey]
    rw [if_pos hpres]
    exact dictDel_restore key d st (habs_no habs)
  · -- per-group List stays empty
    intro hlist
    have habs : hasKey st key = false := by
      by_contra h
      rw [Bool.not_eq_false] at h
      obtain ⟨q, hq, hqk⟩ := List.any_eq_true.mp h
      have hqkey : q.1 = key := by simpa using hqk
      have : q ∈ listFilters st chat := by
        unfold listFilters
        rw [List.mem_filter]
        exact ⟨hq, by simp [hqkey, hkey]⟩
      rw [hlist] at this
      exact absurd this (List.not_mem_nil q)
    have h2 : (stopfilter_cmd (filter_cmd st chat args d) chat args).1 = st := by
      rw [hset_absent habs]
      unfold stopfilter_cmd
      rw [← hkey]
      have hpres : hasKey (st ++ [(key, d)]) key = true := by simp [hasKey]
      rw [if_pos hpres]
      exact dictDel_restore key d st (habs_no habs)
    rw [h2, hlist]
  · -- MatchFirst never matches a removed keyword
    intro e he
    unfold stopfilter_cmd at he
    rw [← hkey] at he
    by_cases hpres : hasKey st key = true
    · rw [if_pos hpres] at he
      have hmem : e ∈ dictDel st key :=
        List.mem_of_find?_eq_some he
      unfold dictDel at hmem
      have := (List.mem_filter.mp hmem).2
      simpa using this
    · rw [if_neg hpres] at he
      have hmem : e ∈ st := List.mem_of_find?_eq_some he
      exact habs_no (by simpa using hpres) e hmem

/--
C7 (witness): on the empty store, setting a filter for "hello" leaves
exactly that entry, and removing it immediately restores the empty store
and the empty listing.
-/
theorem c7_filter_set_remove_witness :
    entriesAt (filter_cmd [] 0 ["hello"] dEx) (0, normKeyword ["hello"]) = [dEx] ∧
    (stopfilter_cmd (filter_cmd [] 0 ["hello"] dEx) 0 ["hello"]).1 = [] ∧
    listFilters ((stopfilter_cmd (filter_cmd [] 0 ["hello"] dEx) 0 ["hello"]).1) 0 = [] := by
  have h := c7_filter_set_remove [] 0 ["hello"] dEx "hello there" (by simp)
  exact ⟨h.1, h.2.1 (by decide), h.2.2.1 (by decide)⟩

/-! ## C9: rejected configuration commands leave state untouched -/

/--
C9 (confirmed).  Whenever `set_warn_limit`, `set_mute_time` or
`set_service_del_time` replies with anything other than success — an
unauthorized caller, a missing argument, a malformed number
(`ValueError`) or an out-of-range value — the command aborts with its
configuration store unchanged.
-/
theorem c9_invalid_input (wst : WarnSettingsStore) (sst : SvcStore)
    (chat : Int) (admin : Bool) (args : List String) :
    ((set_warn_limit wst chat admin args).2 ≠ CmdReply.ok →
      (set_warn_limit wst chat admin args).1 = wst) ∧
    ((set_mute_time wst chat admin args).2 ≠ CmdReply.ok →
      (set_mute_time wst chat admin args).1 = wst) ∧
    ((set_service_del_time sst chat admin args).2 ≠ CmdReply.ok →
      (set_service_del_time sst chat admin args).1 = sst) := by
  refine ⟨?_, ?_, ?_⟩
  · cases admin with
    | false => intro _; simp [set_warn_limit]
    | true =>
      cases args with
      | nil => intro _; simp [set_warn_limit]
      | cons a rest =>
        cases hp : pyInt a with
        | none => intro _; simp [set_warn_limit, hp]
        | some t =>
          by_cases hle : t ≤ 0
          · intro _; simp [set_warn_limit, hp, hle]
          · intro h
            exact absurd (by simp [set_warn_limit, hp, hle]) h
  · cases admin with
    | false => intro _; simp [set_mute_time]
    | true =>
      cases args with
      | nil => intro _; simp [set_mute_time]
      | cons a rest =>
        cases hp : pyInt a with
        | none => intro _; simp [set_mute_time, hp]
        | some t =>
          by_cases hle : t ≤ 0
          · intro _; simp [set_mute_time, hp, hle]
          · intro h
            exact absurd (by simp [set_mute_time, hp, hle]) h
  · cases admin with
    | false => intro _; simp [set_service_del_time]
    | true =>
      cases args with
      | nil => intro _; simp [set_service_del_time]
      | cons a rest =>
        by_cases hd : pyIsDigit a = false
        · intro _; simp [set_service_del_time, hd]
        · by_cases hs : ((((digitsVal a.data).getD 0 : Nat)) : Int) < 1
          · intro _; simp [set_service_del_time, hd, hs]
          · intro h
            refine absurd ?_ h
            cases hst : sst chat with
            | none => simp [set_service_del_time, hd, hs, hst]
            | some s0 => simp [set_service_del_time, hd, hs, hst]

/--
C9 (witness): a non-admin call, a malformed number and a zero value all
leave the stores untouched.
-/
theorem c9_invalid_input_witness :
    (set_warn_limit wstNone 0 false ["5"]).1 = wstNone ∧
    (set_warn_limit wstNone 0 true ["abc"]).1 = wstNone ∧
    (set_warn_limit wstNone 0 true ["0"]).1 = wstNone ∧
    (set_service_del_time sstNone 0 true ["0"]).1 = sstNone :=
  ⟨(c9_invalid_input wstNone sstNone 0 false ["5"]).1 (by decide),
    (c9_invalid_input wstNone sstNone 0 true ["abc"]).1 (by decide),
    (c9_invalid_input wstNone sstNone 0 true ["0"]).1 (by decide),
    (c9_invalid_input wstNone sstNone 0 true ["0"]).2.2 (by decide)⟩

/-! ## C10: the warning commands mutate one field of one group -/

/--
C10 (confirmed).  A successful `set_warn_limit` writes exactly the
threshold field of the addressed chat, keeping the mute duration at its
prior value (or the default 24 when the chat had no record), and a
successful `set_mute_time` symmetrically keeps the threshold; neither
command touches any other chat.
-/
theorem c10_warn_settings_frame (wst : WarnSettingsStore) (chat : Int)
    (a : String) (rest : List String) (t : Int)
    (hp : pyInt a = some t) (hpos : 0 < t) :
    (set_warn_limit wst chat true (a :: rest)).1 chat =
      some ⟨t, ((wst chat).getD ⟨3, 24⟩).mute_duration⟩ ∧
    (∀ c, c ≠ chat → (set_warn_limit wst chat true (a :: rest)).1 c = wst c) ∧
    (set_mute_time wst chat true (a :: rest)).1 chat =
      some ⟨((wst chat).getD ⟨3, 24⟩).threshold, t⟩ ∧
    (∀ c, c ≠ chat → (set_mute_time wst chat true (a :: rest)).1 c = wst c) := by
  have hle : ¬ t ≤ 0 := by omega
  refine ⟨?_, ?_, ?_, ?_⟩
  · simp [set_warn_limit, hp, hle]
  · intro c hc
    simp [set_warn_limit, hp, hle, hc]
  · simp [set_mute_time, hp, hle]
  · intro c hc
    simp [set_mute_time, hp, hle, hc]

/--
C10 (witness): setting the threshold to 5 on an unconfigured group
records threshold 5 with the default 24-hour duration and leaves other
groups untouched; setting the duration to 5 records the default
threshold 3 with duration 5.
-/
theorem c10_warn_settings_frame_witness :
    (set_warn_limit wstNone 0 true ["5"]).1 0 = some ⟨5, 24⟩ ∧
    (set_warn_limit wstNone 0 true ["5"]).1 1 = wstNone 1 ∧
    (set_mute_time wstNone 0 true ["5"]).1 0 = some ⟨3, 5⟩ ∧
    (set_mute_time wstNone 0 true ["5"]).1 1 = wstNone 1 := by
  have h := c10_warn_settings_frame wstNone 0 "5" [] 5 (by decide) (by decide)
  exact ⟨h.1, h.2.1 1 (by decide), h.2.2.1, h.2.2.2 1 (by decide)⟩

end GroupBot
